import Mathlib

/-!
# Verification of the OpenClaw GitHub-Models proxy translation core

Shallow embedding of the request/response translation core of the two proxy
scripts in this repository:

* `scripts/github_proxy.py` — model mapping, token-budget truncation,
  non-streaming model rewrite, SSE streaming re-framing with error paths;
* `scripts/openrouter_to_github.py` — model resolution (exact then
  case-insensitive substring match), request shape translation with a
  parameter allow-list, error-body wrapping, and verbatim SSE forwarding.

JSON values are modelled by an inductive `Json` type.  Python's `json.dumps`
(default separators, insertion-ordered dicts) is modelled by `dumps`;
`json.loads` is modelled by the executable parser `loads`.  The parser covers
the fragment of JSON the proxies actually exchange: numbers are integers
(no floats/exponents), objects keep Python-dict semantics (a duplicate key
overwrites the earlier value in place), and non-ASCII characters are kept
verbatim rather than `\u`-escaped.  None of the verified properties inspect
numeric payload values or non-ASCII text, so the restriction is harmless.
-/

inductive Json where
  | null : Json
  | bool : Bool → Json
  | num : Int → Json
  | str : String → Json
  | arr : List Json → Json
  | obj : List (String × Json) → Json

namespace Json

/-- Python truthiness (`if not x`) on JSON values: `None`, `False`, `0`,
`""`, `[]`, `{}` are falsy. -/
def truthy : Json → Bool
  | .null => false
  | .bool b => b
  | .num n => n != 0
  | .str s => s != ""
  | .arr [] => false
  | .arr (_ :: _) => true
  | .obj [] => false
  | .obj (_ :: _) => true

end Json

/-- `d.get(k)` on an insertion-ordered dict modelled as an association list
(keys unique by construction of the parser and the translation code). -/
def dictLookup (d : List (String × Json)) (k : String) : Option Json :=
  (d.find? (fun kv => kv.1 = k)).map (fun kv => kv.2)

/-- `d.get(k, default)`. -/
def dictGet (d : List (String × Json)) (k : String) (default : Json) : Json :=
  (dictLookup d k).getD default

/-- Python dict insertion `d[k] = v`: overwrite in place if the key exists,
otherwise append. -/
def objInsert (d : List (String × Json)) (k : String) (v : Json) :
    List (String × Json) :=
  if d.any (fun kv => kv.1 = k) then
    d.map (fun kv => if kv.1 = k then (kv.1, v) else kv)
  else
    d ++ [(k, v)]

/-- JSON string escaping as done by `json.dumps` for the ASCII fragment. -/
def escChar (c : Char) : String :=
  if c = '"' then "\\\""
  else if c = '\\' then "\\\\"
  else if c = '\n' then "\\n"
  else if c = '\t' then "\\t"
  else if c = '\r' then "\\r"
  else String.singleton c

def escString (s : String) : String :=
  String.join (s.data.map escChar)

mutual

/-- `json.dumps` with Python's default separators `", "` and `": "`,
preserving dict insertion order. -/
def dumps : Json → String
  | .null => "null"
  | .bool true => "true"
  | .bool false => "false"
  | .num n => toString n
  | .str s => "\"" ++ escString s ++ "\""
  | .arr xs => "[" ++ dumpsItems xs ++ "]"
  | .obj kvs => "\x7b" ++ dumpsMembers kvs ++ "\x7d"

def dumpsItems : List Json → String
  | [] => ""
  | [x] => dumps x
  | x :: y :: xs => dumps x ++ ", " ++ dumpsItems (y :: xs)

def dumpsMembers : List (String × Json) → String
  | [] => ""
  | [kv] => "\"" ++ escString kv.1 ++ "\": " ++ dumps kv.2
  | kv :: kv2 :: kvs =>
      "\"" ++ escString kv.1 ++ "\": " ++ dumps kv.2 ++ ", " ++
        dumpsMembers (kv2 :: kvs)

end

/-- Whitespace skipping for the JSON parser. -/
def skipWs : List Char → List Char
  | [] => []
  | c :: cs =>
      if c = ' ' ∨ c = '\t' ∨ c = '\n' ∨ c = '\r' then skipWs cs else c :: cs

/-- Parse the body of a JSON string literal (opening quote already
consumed), handling the standard escapes. -/
def parseStrAux (acc : List Char) : List Char → Option (String × List Char)
  | [] => none
  | c :: r =>
      if c = '"' then some (String.mk acc.reverse, r)
      else if c = '\\' then
        match r with
        | '"' :: r2 => parseStrAux ('"' :: acc) r2
        | '\\' :: r2 => parseStrAux ('\\' :: acc) r2
        | '/' :: r2 => parseStrAux ('/' :: acc) r2
        | 'n' :: r2 => parseStrAux ('\n' :: acc) r2
        | 't' :: r2 => parseStrAux ('\t' :: acc) r2
        | 'r' :: r2 => parseStrAux ('\r' :: acc) r2
        | 'b' :: r2 => parseStrAux ((Char.ofNat 8) :: acc) r2
        | 'f' :: r2 => parseStrAux ((Char.ofNat 12) :: acc) r2
        | _ => none
      else parseStrAux (c :: acc) r

def isDigit (c : Char) : Bool := '0' ≤ c ∧ c ≤ '9'

/-- Consume a run of decimal digits, accumulating their value. -/
def parseDigits (acc : Int) : List Char → (Int × List Char)
  | [] => (acc, [])
  | c :: r =>
      if isDigit c then parseDigits (acc * 10 + (c.toNat - '0'.toNat)) r
      else (acc, c :: r)

/-- Parse an integer literal (optional leading minus, at least one digit). -/
def parseInt : List Char → Option (Json × List Char)
  | [] => none
  | c :: r =>
      if c = '-' then
        match r with
        | d :: _ =>
            if isDigit d then
              let p := parseDigits 0 r
              some (.num (-p.1), p.2)
            else none
        | [] => none
      else if isDigit c then
        let p := parseDigits 0 (c :: r)
        some (.num p.1, p.2)
      else none

/-- Parser mode: a plain value, the items of an array being accumulated, or
the members of an object being accumulated. -/
inductive PMode where
  | val : PMode
  | items : List Json → PMode
  | members : List (String × Json) → PMode

/-- Fuel-indexed JSON parser (single structural recursion on the fuel so
that the kernel can evaluate it).  `PMode.items`/`PMode.members` expect the
next element after an opening bracket or a comma. -/
def parseStep : Nat → PMode → List Char → Option (Json × List Char)
  | 0, _, _ => none
  | fuel + 1, .val, cs =>
      match skipWs cs with
      | '\x7b' :: r =>
          match skipWs r with
          | '\x7d' :: r2 => some (.obj [], r2)
          | _ => parseStep fuel (.members []) r
      | '[' :: r =>
          match skipWs r with
          | ']' :: r2 => some (.arr [], r2)
          | _ => parseStep fuel (.items []) r
      | '"' :: r =>
          (parseStrAux [] r).map (fun p => (Json.str p.1, p.2))
      | 't' :: 'r' :: 'u' :: 'e' :: r => some (.bool true, r)
      | 'f' :: 'a' :: 'l' :: 's' :: 'e' :: r => some (.bool false, r)
      | 'n' :: 'u' :: 'l' :: 'l' :: r => some (.null, r)
      | cs' => parseInt cs'
  | fuel + 1, .items acc, cs =>
      match parseStep fuel .val cs with
      | none => none
      | some (v, rest) =>
          match skipWs rest with
          | ',' :: r2 => parseStep fuel (.items (acc ++ [v])) r2
          | ']' :: r2 => some (.arr (acc ++ [v]), r2)
          | _ => none
  | fuel + 1, .members acc, cs =>
      match skipWs cs with
      | '"' :: r =>
          match parseStrAux [] r with
          | none => none
          | some (k, rest) =>
              match skipWs rest with
              | ':' :: r2 =>
                  match parseStep fuel .val r2 with
                  | none => none
                  | some (v, rest2) =>
                      match skipWs rest2 with
                      | ',' :: r3 => parseStep fuel (.members (objInsert acc k v)) r3
                      | '\x7d' :: r3 => some (.obj (objInsert acc k v), r3)
                      | _ => none
              | _ => none
      | _ => none

/-- `json.loads`: parse a complete document, rejecting trailing garbage. -/
def loads (s : String) : Option Json :=
  match parseStep (3 * s.data.length + 12) .val s.data with
  | some (j, rest) => if skipWs rest = [] then some j else none
  | none => none

/-! ## `scripts/openrouter_to_github.py` -/

namespace OpenrouterToGithub

/-- The `Config` dataclass. -/
structure Config where
  github_token : String
  github_api_url : String
  github_models_url : String
  default_model : String
  port : Nat

/-- `load_config()` evaluated with none of the optional environment
variables set (the documented defaults). -/
def defaultConfig : Config :=
  { github_token := ""
    github_api_url := "https://api.github.com"
    github_models_url := "https://models.inference.ai.azure.com"
    default_model := "claude-4.5-opus"
    port := 8000 }

/-- `model_mapping()` / `MODEL_MAPPING`: the static mapping, as an ordered
association list because the substring tie-break depends on declaration
order. -/
def MODEL_MAPPING : List (String × String) :=
  [ ("gpt-4", "gpt-4o"),
    ("gpt-4-turbo", "gpt-4o"),
    ("gpt-4o", "gpt-4o"),
    ("gpt-4o-mini", "gpt-4o-mini"),
    ("gpt-3.5-turbo", "gpt-4o-mini"),
    ("o1", "o1"),
    ("o1-mini", "o1-mini"),
    ("o1-preview", "o1-preview"),
    ("claude-3-opus", "claude-3-opus"),
    ("claude-3-sonnet", "claude-3-sonnet"),
    ("claude-3-haiku", "claude-3-haiku"),
    ("claude-3.5-sonnet", "claude-3.5-sonnet"),
    ("opus-4.5", "claude-4.5-opus"),
    ("claude-4.5-opus", "claude-4.5-opus"),
    ("llama-3", "meta-llama-3-70b-instruct"),
    ("llama-3-70b", "meta-llama-3-70b-instruct"),
    ("llama-3.1-405b", "meta-llama-3.1-405b-instruct"),
    ("mistral-large", "mistral-large"),
    ("mistral-small", "mistral-small"),
    ("command-r", "cohere-command-r"),
    ("command-r-plus", "cohere-command-r-plus") ]

/-- Python `str.lower()` on the ASCII range (all mapping keys and the
model ids exchanged by the proxies are ASCII). -/
def lowerChar (c : Char) : Char :=
  if 'A' ≤ c ∧ c ≤ 'Z' then Char.ofNat (c.toNat + 32) else c

def lowerStr (s : String) : String :=
  String.mk (s.data.map lowerChar)

/-- Python's substring test `needle in hay` on strings (as code points). -/
def infixOf (needle hay : List Char) : Bool :=
  hay.tails.any (fun t => needle.isPrefixOf t)

/-- The case-insensitive substring predicate of the resolver's second step:
`key.lower() in requested_lower or requested_lower in key.lower()`. -/
def substrPred (requested : String) (kv : String × String) : Bool :=
  infixOf (lowerStr kv.1).data (lowerStr requested).data ||
    infixOf (lowerStr requested).data (lowerStr kv.1).data

/-- `get_github_model`: exact match first, then the first (declaration
order) case-insensitive substring match, then the fallback
`requested_model or config.default_model`. -/
def get_github_model (requested_model : String) (config : Config) : String :=
  match MODEL_MAPPING.find? (fun kv => kv.1 = requested_model) with
  | some kv => kv.2
  | none =>
      match MODEL_MAPPING.find? (substrPred requested_model) with
      | some kv => kv.2
      | none =>
          if requested_model = "" then config.default_model else requested_model

/-- The allow-listed scalar parameters of `transform_request`, in the
declaration order of the `passthrough_keys` tuple. -/
def passthrough_keys : List String :=
  ["temperature", "max_tokens", "top_p", "stream", "stop",
   "presence_penalty", "frequency_penalty"]

/-- `transform_request`: build a fresh upstream payload with `messages` and
`model` always present, then copy through only the allow-listed keys.  The
inbound body is the parsed JSON object (insertion-ordered key/value list).
Returns `none` when the inbound `model` value is present but not a string,
in which case the Python code raises (`.lower()` on a non-string). -/
def transform_request (openai_request : List (String × Json)) (config : Config) :
    Option (List (String × Json)) :=
  match (dictLookup openai_request "model").getD (Json.str config.default_model) with
  | Json.str requested =>
      some
        ([("messages", (dictLookup openai_request "messages").getD (Json.arr [])),
          ("model", Json.str (get_github_model requested config))]
          ++ passthrough_keys.filterMap
              (fun k => (dictLookup openai_request k).map (fun v => (k, v))))
  | _ => none

/-- `stream_response`: forward every non-blank upstream line that starts
with `"data: "`, verbatim, appending the SSE frame separator; every other
line is dropped.  No rewriting of the payload is performed. -/
def stream_response : List String → List String
  | [] => []
  | line :: rest =>
      if line = "" then stream_response rest
      else if "data: ".data.isPrefixOf line.data then
        (line ++ "\n\n") :: stream_response rest
      else stream_response rest

/-- The non-200 branch of `chat_completions`: the upstream status is kept
but the raw upstream text is wrapped into an error envelope
`\x7b"error": \x7b"message", "type", "code"\x7d\x7d`. -/
def chat_error (status : Nat) (text : String) : Nat × Json :=
  (status,
    Json.obj
      [("error",
        Json.obj
          [("message", Json.str ("GitHub Models API error: " ++ text)),
           ("type", Json.str "api_error"),
           ("code", Json.num (Int.ofNat status))])])

/-- The 200 non-streaming branch of `chat_completions`: the upstream JSON
body is returned as-is (`jsonify(github_response.json())`), with no model
rewrite; `none` when the upstream body fails to parse (Python raises). -/
def chat_success_body (upstream_text : String) : Option Json :=
  loads upstream_text

end OpenrouterToGithub

/-! ## `scripts/github_proxy.py` -/

namespace GithubProxy

/-- `MODEL_MAP`: the static mapping of `github_proxy.py`, in declaration
order. -/
def MODEL_MAP : List (String × String) :=
  [ ("gpt-4o", "gpt-4o"),
    ("gpt-4o-mini", "gpt-4o-mini"),
    ("gpt-4", "gpt-4o"),
    ("gpt-3.5-turbo", "gpt-4o-mini"),
    ("o1", "o1"),
    ("o1-mini", "o1-mini"),
    ("o1-preview", "o1-preview"),
    ("claude-3.5-sonnet", "claude-3-5-sonnet"),
    ("claude-3-5-sonnet", "claude-3-5-sonnet") ]

/-- A chat message: the `role` and `content` entries of the message dict
(strings, per the data model), plus the remaining metadata entries, passed
through unexamined. -/
structure Message where
  role : String
  content : String
  meta : List (String × Json)

/-- The inbound request body of `chat_completions`, with the entries the
code manipulates lifted into fields: the optional `"model"` entry, the
optional `"store"` entry, `"messages"` (absent modelled as `[]`, matching
`data.get("messages", [])`), `"tools"` (likewise), and every remaining
top-level entry in `extra`, which the code never touches. -/
structure GPData where
  model? : Option String
  store? : Option Json
  messages : List Message
  tools : List Json
  extra : List (String × Json)

/-- `estimate_tokens`: `len(str(text)) // 4` (contents are strings, so
`str` is the identity). -/
def estimate_tokens (text : String) : Nat :=
  text.length / 4

/-- The per-message contribution of `truncate_request`'s estimate:
`estimate_tokens(m.get("content", "")) + 10`. -/
def msgTokens (messages : List Message) : Nat :=
  (messages.map (fun m => estimate_tokens m.content + 10)).sum

/-- The per-tool contribution: `estimate_tokens(json.dumps(t))`. -/
def toolTokens (tools : List Json) : Nat :=
  (tools.map (fun t => estimate_tokens (dumps t))).sum

/-- Python string slicing `s[:n]` (by code points). -/
def pyTake (s : String) (n : Nat) : String :=
  String.mk (s.data.take n)

/-- The literal marker appended by strategy 1. -/
def truncMarker : String := "\n\n[System prompt truncated for token limits]"

/-- Strategy 1 of `truncate_request`: if the first message has role
`"system"` and its estimated tokens exceed 3000, truncate its content to
the first 12000 characters plus the marker. -/
def truncateSystem : List Message → List Message
  | [] => []
  | m :: rest =>
      if m.role = "system" ∧ estimate_tokens m.content > 3000 then
        { m with content := pyTake m.content 12000 ++ truncMarker } :: rest
      else m :: rest

/-- `truncate_request(data, max_tokens)`: estimate, return unchanged when
at or below the budget, otherwise apply the three truncation strategies in
order (system-prompt truncation, keep system messages plus the last five
messages, keep the first ten tools). -/
def truncate_request (data : GPData) (max_tokens : Nat) : GPData :=
  let total := msgTokens data.messages + toolTokens data.tools
  if total ≤ max_tokens then data
  else
    let messages := truncateSystem data.messages
    let messages :=
      if messages.length > 6 then
        messages.filter (fun m => m.role = "system")
          ++ messages.drop (messages.length - 5)
      else messages
    let tools :=
      if data.tools.length > 10 then data.tools.take 10 else data.tools
    { data with messages := messages, tools := tools }

/-- The request preparation of `chat_completions` before the upstream call:
`requested_model = data.get("model", "gpt-4o")`, exact-match mapping with
fallback to the requested id, `data["model"] = github_model`,
`data.pop("store", None)`, then `truncate_request(data)` with the default
budget 6000.  Returns the upstream payload together with the caller's
requested model id. -/
def chat_completions_prep (data : GPData) : GPData × String :=
  let requested_model := data.model?.getD "gpt-4o"
  let github_model :=
    ((MODEL_MAP.find? (fun kv => kv.1 = requested_model)).map
      (fun kv => kv.2)).getD requested_model
  let data' : GPData :=
    { data with model? := some github_model, store? := none }
  (truncate_request data' 6000, requested_model)

/-! ### Streaming translation (`stream_response` / `generate`) -/

/-- How the upstream line iteration ends when the loop does not break
first: clean end of stream, or a transport-level exception carrying a
description. -/
inductive UpstreamEnd where
  | eof : UpstreamEnd
  | exn : String → UpstreamEnd

/-- The upstream side of one streaming call: either `requests.post` itself
raises, or it returns a status, a body text, the decoded lines delivered by
`iter_lines`, and the way the iteration ends. -/
inductive Upstream where
  | postFail : String → Upstream
  | response : Nat → String → List String → UpstreamEnd → Upstream

/-- How the `for line in resp.iter_lines()` loop exits: the line list was
exhausted, the loop broke at a `[DONE]` payload, or a statement inside the
loop raised (caught by the surrounding `except`). -/
inductive LoopExit where
  | finished : LoopExit
  | broke : LoopExit
  | raised : String → LoopExit

/-- `line.startswith("data: ")` followed by `line[6:]`. -/
def stripData (line : String) : Option String :=
  match line.data with
  | 'd' :: 'a' :: 't' :: 'a' :: ':' :: ' ' :: rest => some (String.mk rest)
  | _ => none

/-- The terminal SSE frame. -/
def doneFrame : String := "data: [DONE]\n\n"

/-- An outbound SSE data frame: `f"data: \x7bjson.dumps(j)\x7d\n\n"`. -/
def sseData (j : Json) : String := "data: " ++ dumps j ++ "\n\n"

/-- The chunk assembled for a forwarded upstream chunk: fixed id, object
tag, creation time and the caller's requested model, the upstream `choices`
value unmodified, and the upstream `usage` value when present. -/
def mkChunk (chunk_id : String) (created : Int) (model : String)
    (choices : Json) (usage : Option Json) : Json :=
  Json.obj
    ([("id", Json.str chunk_id),
      ("object", Json.str "chat.completion.chunk"),
      ("created", Json.num created),
      ("model", Json.str model),
      ("choices", choices)]
      ++ match usage with
         | some u => [("usage", u)]
         | none => [])

/-- The synthetic error chunk (used both for a non-200 initial status and
for a mid-stream exception): one choice with the message in its delta and
finish reason `"stop"`. -/
def errorChunk (chunk_id : String) (created : Int) (model : String)
    (content : String) : Json :=
  Json.obj
    [("id", Json.str chunk_id),
     ("object", Json.str "chat.completion.chunk"),
     ("created", Json.num created),
     ("model", Json.str model),
     ("choices",
       Json.arr
         [Json.obj
           [("index", Json.num 0),
            ("delta", Json.obj [("content", Json.str content)]),
            ("finish_reason", Json.str "stop")]])]

/-- The body of the `for line in resp.iter_lines()` loop: skip blank lines
and lines without the `data: ` prefix; forward `[DONE]` and break; drop
payloads that fail to parse; on a parsed object, drop it when its
`choices` value is falsy, otherwise emit the re-framed chunk; a parsed
non-object payload makes `parsed.get` raise (`AttributeError`), which the
surrounding `except` turns into the error-chunk exit. -/
def processLines (model chunk_id : String) (created : Int) :
    List String → (List String × LoopExit)
  | [] => ([], .finished)
  | line :: rest =>
      if line = "" then processLines model chunk_id created rest
      else
        match stripData line with
        | none => processLines model chunk_id created rest
        | some data_content =>
            if data_content = "[DONE]" then ([doneFrame], .broke)
            else
              match loads data_content with
              | none => processLines model chunk_id created rest
              | some (Json.obj kvs) =>
                  let choices := dictGet kvs "choices" (Json.arr [])
                  if choices.truthy then
                    let out := processLines model chunk_id created rest
                    (sseData
                        (mkChunk chunk_id created model choices
                          (dictLookup kvs "usage")) :: out.1,
                      out.2)
                  else processLines model chunk_id created rest
              | some _ => ([], .raised "AttributeError")

/-- The whole `generate()` generator of `stream_response`: the non-200
branch emits one synthetic error chunk plus `[DONE]`; otherwise the line
loop runs, and an exception — either raised inside the loop or by the
transport after the delivered lines — is converted by the outer `except`
into one synthetic error chunk plus `[DONE]`.  A clean end of the upstream
lines without a `[DONE]` payload simply ends the generator. -/
def generate (up : Upstream) (model chunk_id : String) (created : Int) :
    List String :=
  match up with
  | .postFail msg =>
      [sseData (errorChunk chunk_id created model ("Proxy error: " ++ msg)),
       doneFrame]
  | .response status _text lines ending =>
      if status ≠ 200 then
        [sseData (errorChunk chunk_id created model
            ("Error: " ++ toString status)),
         doneFrame]
      else
        let out := processLines model chunk_id created lines
        match out.2 with
        | .broke => out.1
        | .raised msg =>
            out.1 ++
              [sseData (errorChunk chunk_id created model
                  ("Proxy error: " ++ msg)),
               doneFrame]
        | .finished =>
            match ending with
            | .eof => out.1
            | .exn msg =>
                out.1 ++
                  [sseData (errorChunk chunk_id created model
                      ("Proxy error: " ++ msg)),
                   doneFrame]

/-! ### Non-streaming translation (`non_streaming_response`) -/

/-- One non-streaming upstream response: its status and body text. -/
structure SyncUp where
  status : Nat
  text : String

/-- An outbound HTTP body: the raw upstream text (error passthrough) or a
JSON document to be serialized by the framework. -/
inductive HttpBody where
  | raw : String → HttpBody
  | jsonBody : Json → HttpBody

/-- `if "model" in result: result["model"] = model` on the parsed body.
For an object this tests key membership and overwrites the entry in place;
for other body shapes Python's `in`/item assignment either raises
(`none`) or leaves the body untouched. -/
def rewriteModel (model : String) : Json → Option Json
  | .obj kvs =>
      if kvs.any (fun kv => kv.1 = "model") then
        some (.obj (kvs.map
          (fun kv => if kv.1 = "model" then (kv.1, Json.str model) else kv)))
      else some (.obj kvs)
  | .arr xs =>
      if xs.any (fun x =>
          match x with
          | .str s => s = "model"
          | _ => false) then none
      else some (.arr xs)
  | .str s =>
      if OpenrouterToGithub.infixOf "model".data s.data then none
      else some (.str s)
  | _ => none

/-- `non_streaming_response`: a non-200 status passes the status and the
raw body text through unchanged; a 200 response has its body parsed and
the `model` field rewritten to the caller's requested id when present.
`none` models an uncaught Python exception (unparsable 200 body, or the
ill-typed membership cases of `rewriteModel`). -/
def non_streaming_response (up : SyncUp) (model : String) :
    Option (Nat × HttpBody) :=
  if up.status ≠ 200 then some (up.status, .raw up.text)
  else
    match loads up.text with
    | none => none
    | some result =>
        match rewriteModel model result with
        | none => none
        | some r => some (200, .jsonBody r)

end GithubProxy

namespace GithubProxy

/-- The `model` entry of a JSON object (used to state the outbound-frame
invariant). -/
def modelField : Json → Option Json
  | .obj kvs => dictLookup kvs "model"
  | _ => none

end GithubProxy

/-! ### Concrete fixtures used by witnesses and counterexamples -/

namespace Fixtures

/-- A 40000-character message content: estimated `40000 // 4 = 10000`
tokens, enough to push a request over the 6000-token budget. -/
def bigContentB : String := String.mk (List.replicate 40000 'b')

/-- A 24000-character system-prompt content: estimated 6000 tokens, above
the 3000-token system-prompt truncation threshold. -/
def bigContentA : String := String.mk (List.replicate 24000 'a')

end Fixtures

/-! ## Helper lemmas -/

namespace GithubProxy

theorem modelField_mkChunk (chunk_id : String) (created : Int) (model : String)
    (choices : Json) (usage : Option Json) :
    modelField (mkChunk chunk_id created model choices usage) =
      some (Json.str model) := by
  cases usage <;> rfl

theorem modelField_errorChunk (chunk_id : String) (created : Int)
    (model content : String) :
    modelField (errorChunk chunk_id created model content) =
      some (Json.str model) := rfl

theorem stripData_prepend (s : String) :
    stripData ("data: " ++ s) = some s := by
  unfold stripData
  rw [String.data_append]
  rfl

theorem prepend_ne_empty (s : String) : "data: " ++ s ≠ "" := by
  intro h
  have h2 : ("data: " ++ s).data = [] := by rw [h]
  rw [String.data_append] at h2
  simp at h2

theorem getLast?_append_pair (l : List String) (a b : String) :
    (l ++ [a, b]).getLast? = some b := by
  have h : l ++ [a, b] = (l ++ [a]) ++ [b] := by simp
  rw [h, List.getLast?_concat]

end GithubProxy

namespace GithubProxy

theorem processLines_frames (model chunk_id : String) (created : Int) :
    ∀ (lines : List String) (f : String),
      f ∈ (processLines model chunk_id created lines).1 →
      f = doneFrame ∨
        ∃ j, f = sseData j ∧ modelField j = some (Json.str model) := by
  intro lines
  induction lines with
  | nil => intro f hf; simp [processLines] at hf
  | cons line rest ih =>
    intro f hf
    by_cases hline : line = ""
    · simp only [processLines, if_pos hline] at hf
      exact ih f hf
    · cases hstrip : stripData line with
      | none =>
          simp only [processLines, if_neg hline, hstrip] at hf
          exact ih f hf
      | some dc =>
          by_cases hdone : dc = "[DONE]"
          · simp only [processLines, if_neg hline, hstrip, if_pos hdone] at hf
            simp at hf
            left; exact hf
          · cases hload : loads dc with
            | none =>
                simp only [processLines, if_neg hline, hstrip, if_neg hdone,
                  hload] at hf
                exact ih f hf
            | some j =>
                cases j with
                | obj kvs =>
                    by_cases htr : (dictGet kvs "choices" (Json.arr [])).truthy
                    · simp only [processLines, if_neg hline, hstrip,
                        if_neg hdone, hload, if_pos htr] at hf
                      rcases List.mem_cons.mp hf with h | h
                      · right
                        exact ⟨_, h, modelField_mkChunk ..⟩
                      · exact ih f h
                    · simp only [processLines, if_neg hline, hstrip,
                        if_neg hdone, hload, if_neg htr] at hf
                      exact ih f hf
                | null =>
                    simp only [processLines, if_neg hline, hstrip,
                      if_neg hdone, hload] at hf
                    simp at hf
                | bool b =>
                    simp only [processLines, if_neg hline, hstrip,
                      if_neg hdone, hload] at hf
                    simp at hf
                | num n =>
                    simp only [processLines, if_neg hline, hstrip,
                      if_neg hdone, hload] at hf
                    simp at hf
                | str s =>
                    simp only [processLines, if_neg hline, hstrip,
                      if_neg hdone, hload] at hf
                    simp at hf
                | arr xs =>
                    simp only [processLines, if_neg hline, hstrip,
                      if_neg hdone, hload] at hf
                    simp at hf

theorem processLines_broke (model chunk_id : String) (created : Int) :
    ∀ lines : List String,
      (processLines model chunk_id created lines).2 = LoopExit.broke →
      ∃ pre, (processLines model chunk_id created lines).1 =
        pre ++ [doneFrame] := by
  intro lines
  induction lines with
  | nil => intro h; simp [processLines] at h
  | cons line rest ih =>
    intro h
    by_cases hline : line = ""
    · simp only [processLines, if_pos hline] at h ⊢
      exact ih h
    · cases hstrip : stripData line with
      | none =>
          simp only [processLines, if_neg hline, hstrip] at h ⊢
          exact ih h
      | some dc =>
          by_cases hdone : dc = "[DONE]"
          · simp only [processLines, if_neg hline, hstrip, if_pos hdone]
            exact ⟨[], rfl⟩
          · cases hload : loads dc with
            | none =>
                simp only [processLines, if_neg hline, hstrip, if_neg hdone,
                  hload] at h ⊢
                exact ih h
            | some j =>
                cases j with
                | obj kvs =>
                    by_cases htr : (dictGet kvs "choices" (Json.arr [])).truthy
                    · simp only [processLines, if_neg hline, hstrip,
                        if_neg hdone, hload, if_pos htr] at h ⊢
                      obtain ⟨pre, hpre⟩ := ih h
                      exact ⟨_ :: pre, by rw [hpre]; rfl⟩
                    · simp only [processLines, if_neg hline, hstrip,
                        if_neg hdone, hload, if_neg htr] at h ⊢
                      exact ih h
                | null =>
                    simp only [processLines, if_neg hline, hstrip,
                      if_neg hdone, hload] at h
                    exact nomatch h
                | bool b =>
                    simp only [processLines, if_neg hline, hstrip,
                      if_neg hdone, hload] at h
                    exact nomatch h
                | num n =>
                    simp only [processLines, if_neg hline, hstrip,
                      if_neg hdone, hload] at h
                    exact nomatch h
                | str s =>
                    simp only [processLines, if_neg hline, hstrip,
                      if_neg hdone, hload] at h
                    exact nomatch h
                | arr xs =>
                    simp only [processLines, if_neg hline, hstrip,
                      if_neg hdone, hload] at h
                    exact nomatch h

end GithubProxy

theorem dictLookup_rewrite_model (kvs : List (String × Json)) (m : String) :
    kvs.any (fun kv => kv.1 = "model") = true →
    dictLookup
      (kvs.map (fun kv => if kv.1 = "model" then (kv.1, Json.str m) else kv))
      "model" = some (Json.str m) := by
  induction kvs with
  | nil => simp
  | cons kv rest ih =>
    intro h
    by_cases hk : kv.1 = "model"
    · simp [dictLookup, List.find?_cons_of_pos, hk]
    · simp only [List.any_cons, hk, decide_eq_true_eq] at h
      simp only [List.map_cons, if_neg hk]
      have hrec := ih (by simpa [hk] using h)
      simp only [dictLookup] at hrec ⊢
      rw [List.find?_cons_of_neg]
      · exact hrec
      · simpa using hk

/-! ## Claims -/

/-- C1 (amended).  In `github_proxy.py` the invariant holds: every frame
emitted by the streaming generator is either the `[DONE]` sentinel or a
JSON chunk whose `model` field is the caller's requested id, and a
non-streaming 200 response whose body contains a `model` key has that key
rewritten to the requested id.  (`openrouter_to_github.py`, by contrast,
forwards upstream frames and bodies verbatim — see the counterexample.) -/
theorem c1_requested_model_amended :
    (∀ (up : GithubProxy.Upstream) (model chunk_id : String) (created : Int)
        (f : String), f ∈ GithubProxy.generate up model chunk_id created →
        f = GithubProxy.doneFrame ∨
          ∃ j, f = GithubProxy.sseData j ∧
            GithubProxy.modelField j = some (Json.str model)) ∧
    (∀ (up : GithubProxy.SyncUp) (model : String)
        (kvs : List (String × Json)),
        up.status = 200 → loads up.text = some (Json.obj kvs) →
        kvs.any (fun kv => kv.1 = "model") = true →
        ∃ kvs', GithubProxy.non_streaming_response up model =
            some (200, GithubProxy.HttpBody.jsonBody (Json.obj kvs')) ∧
          dictLookup kvs' "model" = some (Json.str model)) := by
  constructor
  · intro up model chunk_id created f hf
    open GithubProxy in
    cases up with
    | postFail msg =>
        simp only [GithubProxy.generate] at hf
        rcases List.mem_cons.mp hf with h | h
        · exact Or.inr ⟨_, h, GithubProxy.modelField_errorChunk ..⟩
        · simp at h
          exact Or.inl h
    | response status text lines ending =>
        by_cases hs : status ≠ 200
        · simp only [GithubProxy.generate, if_pos hs] at hf
          rcases List.mem_cons.mp hf with h | h
          · exact Or.inr ⟨_, h, GithubProxy.modelField_errorChunk ..⟩
          · simp at h
            exact Or.inl h
        · simp only [GithubProxy.generate, if_neg hs] at hf
          cases hout : (GithubProxy.processLines model chunk_id created lines).2 with
          | broke =>
              rw [hout] at hf
              exact GithubProxy.processLines_frames model chunk_id created lines f hf
          | raised msg =>
              rw [hout] at hf
              rcases List.mem_append.mp hf with h | h
              · exact GithubProxy.processLines_frames model chunk_id created lines f h
              · rcases List.mem_cons.mp h with h2 | h2
                · exact Or.inr ⟨_, h2, GithubProxy.modelField_errorChunk ..⟩
                · simp at h2
                  exact Or.inl h2
          | finished =>
              rw [hout] at hf
              cases ending with
              | eof =>
                  exact GithubProxy.processLines_frames model chunk_id created lines f hf
              | exn msg =>
                  rcases List.mem_append.mp hf with h | h
                  · exact GithubProxy.processLines_frames model chunk_id created lines f h
                  · rcases List.mem_cons.mp h with h2 | h2
                    · exact Or.inr ⟨_, h2, GithubProxy.modelField_errorChunk ..⟩
                    · simp at h2
                      exact Or.inl h2
  · intro up model kvs h200 hload hany
    refine ⟨_, ?_, dictLookup_rewrite_model kvs model hany⟩
    simp only [GithubProxy.non_streaming_response, h200, ne_eq,
      not_true_eq_false, if_false, hload, GithubProxy.rewriteModel,
      if_pos hany]

/-- Witness for C1: the `[DONE]` frame of a failed-post stream satisfies
the frame invariant, and a concrete 200 body `\x7b"model": "gpt-4o"\x7d` is
rewritten to the requested `"gpt-4"`. -/
theorem c1_requested_model_witness :
    (GithubProxy.doneFrame = GithubProxy.doneFrame ∨
      ∃ j, GithubProxy.doneFrame = GithubProxy.sseData j ∧
        GithubProxy.modelField j = some (Json.str "gpt-4")) ∧
    (loads "\x7b\"model\": \"gpt-4o\"\x7d" =
        some (Json.obj [("model", Json.str "gpt-4o")]) ∧
      ∃ kvs', GithubProxy.non_streaming_response
          ⟨200, "\x7b\"model\": \"gpt-4o\"\x7d"⟩ "gpt-4" =
            some (200, GithubProxy.HttpBody.jsonBody (Json.obj kvs')) ∧
        dictLookup kvs' "model" = some (Json.str "gpt-4")) := by
  constructor
  · exact c1_requested_model_amended.1 (GithubProxy.Upstream.postFail "boom")
      "gpt-4" "cid" 0 GithubProxy.doneFrame (by simp [GithubProxy.generate])
  · exact ⟨rfl, c1_requested_model_amended.2
      ⟨200, "\x7b\"model\": \"gpt-4o\"\x7d"⟩ "gpt-4"
      [("model", Json.str "gpt-4o")] rfl rfl (by decide)⟩

/-- Counterexample to C1 as stated: `openrouter_to_github.py`'s
`stream_response` forwards the upstream frame verbatim, so a frame whose
payload's `model` field is the upstream id `"gpt-4o"` reaches the caller
unchanged even though the caller requested `"gpt-4"`. -/
theorem c1_requested_model_counterexample :
    OpenrouterToGithub.stream_response ["data: \x7b\"model\": \"gpt-4o\"\x7d"] =
      ["data: \x7b\"model\": \"gpt-4o\"\x7d\n\n"] ∧
    "data: \x7b\"model\": \"gpt-4o\"\x7d" =
      "data: " ++ "\x7b\"model\": \"gpt-4o\"\x7d" ∧
    loads "\x7b\"model\": \"gpt-4o\"\x7d" =
      some (Json.obj [("model", Json.str "gpt-4o")]) ∧
    ("gpt-4o" : String) ≠ "gpt-4" :=
  ⟨rfl, rfl, rfl, by decide⟩

/-- C2 (amended).  In `github_proxy.py`'s streaming translator every error
exit path ends with the `[DONE]` sentinel: a failed `requests.post`, a
non-200 initial status, a mid-stream exception after the delivered lines,
and any run whose line loop does not simply exhaust the input (i.e. it
broke at an upstream `[DONE]` or raised).  What the claim adds beyond this
— that *every* upstream byte sequence ends with `[DONE]` — is false: a
clean upstream end of stream without a `[DONE]` line ends the generator
without the sentinel (see the counterexample), and
`openrouter_to_github.py`'s forwarder never synthesizes a `[DONE]` at all. -/
theorem c2_done_termination_amended :
    ∀ (model chunk_id : String) (created : Int),
      (∀ msg, (GithubProxy.generate (.postFail msg) model chunk_id
          created).getLast? = some GithubProxy.doneFrame) ∧
      (∀ status text lines ending, status ≠ 200 →
        (GithubProxy.generate (.response status text lines ending) model
          chunk_id created).getLast? = some GithubProxy.doneFrame) ∧
      (∀ text lines msg,
        (GithubProxy.generate (.response 200 text lines (.exn msg)) model
          chunk_id created).getLast? = some GithubProxy.doneFrame) ∧
      (∀ status text lines ending,
        (GithubProxy.processLines model chunk_id created lines).2 ≠
          GithubProxy.LoopExit.finished →
        (GithubProxy.generate (.response status text lines ending) model
          chunk_id created).getLast? = some GithubProxy.doneFrame) := by
  intro model chunk_id created
  refine ⟨?_, ?_, ?_, ?_⟩
  · intro msg
    exact GithubProxy.getLast?_append_pair [] _ _
  · intro status text lines ending hs
    simp only [GithubProxy.generate, if_pos hs]
    exact GithubProxy.getLast?_append_pair [] _ _
  · intro text lines msg
    simp only [GithubProxy.generate, ne_eq, not_true_eq_false, if_false]
    cases hout : (GithubProxy.processLines model chunk_id created lines).2 with
    | broke =>
        obtain ⟨pre, hpre⟩ :=
          GithubProxy.processLines_broke model chunk_id created lines hout
        rw [hpre, List.getLast?_concat]
    | raised msg2 => exact GithubProxy.getLast?_append_pair ..
    | finished => exact GithubProxy.getLast?_append_pair ..
  · intro status text lines ending hne
    by_cases hs : status ≠ 200
    · simp only [GithubProxy.generate, if_pos hs]
      exact GithubProxy.getLast?_append_pair [] _ _
    · simp only [GithubProxy.generate, if_neg hs]
      cases hout : (GithubProxy.processLines model chunk_id created lines).2 with
      | broke =>
          obtain ⟨pre, hpre⟩ :=
            GithubProxy.processLines_broke model chunk_id created lines hout
          rw [hpre, List.getLast?_concat]
      | raised msg2 => exact GithubProxy.getLast?_append_pair ..
      | finished => exact absurd hout hne

/-- Witness for C2: a concrete upstream 500 with no body lines yields a
stream whose final frame is `[DONE]`. -/
theorem c2_done_termination_witness :
    (500 ≠ 200) ∧
    (GithubProxy.generate (.response 500 "upstream error" [] .eof) "gpt-4o"
      "cid" 3).getLast? = some GithubProxy.doneFrame :=
  ⟨by decide,
    (c2_done_termination_amended "gpt-4o" "cid" 3).2.1 500 "upstream error"
      [] .eof (by decide)⟩

/-- Counterexample to C2 as stated: an upstream 200 whose line stream ends
cleanly without ever sending a `data: [DONE]` line produces a frame
sequence with no `[DONE]` — here the empty sequence, which has no final
frame at all. -/
theorem c2_done_termination_counterexample :
    GithubProxy.generate (.response 200 "" [] .eof) "gpt-4o" "cid" 0 = [] ∧
    (GithubProxy.generate (.response 200 "" [] .eof) "gpt-4o" "cid"
      0).getLast? ≠ some GithubProxy.doneFrame :=
  ⟨rfl, by decide⟩

theorem find?_key_of_mem {β : Type} (l : List (String × β)) (k : String) (v : β)
    (hnd : (l.map Prod.fst).Nodup) (hmem : (k, v) ∈ l) :
    l.find? (fun kv => kv.1 = k) = some (k, v) := by
  induction l with
  | nil => simp at hmem
  | cons kv rest ih =>
    rcases List.mem_cons.mp hmem with h | h
    · rw [← h]
      simp [List.find?_cons_of_pos]
    · have hk : kv.1 ≠ k := by
        intro he
        have : k ∈ rest.map Prod.fst := List.mem_map.mpr ⟨(k, v), h, rfl⟩
        simp only [List.map_cons, List.nodup_cons] at hnd
        exact hnd.1 (he ▸ this)
      rw [List.find?_cons_of_neg _ (by simpa using hk)]
      exact ih (by simp only [List.map_cons, List.nodup_cons] at hnd; exact hnd.2) h

theorem find?_of_take_all_neg {α : Type} (p : α → Bool) :
    ∀ (l : List α) (i : Nat) (x : α),
      (l.take i).all (fun y => !(p y)) = true →
      l.get? i = some x → p x = true →
      l.find? p = some x := by
  intro l
  induction l with
  | nil => intro i x _ h2; simp at h2
  | cons a t ih =>
    intro i x h1 h2 h3
    cases i with
    | zero =>
        simp only [List.get?] at h2
        injection h2 with h2
        subst h2
        simp [List.find?_cons_of_pos, h3]
    | succ n =>
        simp only [List.take_succ_cons, List.all_cons, Bool.and_eq_true,
          Bool.not_eq_true'] at h1
        rw [List.find?_cons_of_neg _ (by simp [h1.1])]
        exact ih n x h1.2 h2 h3

theorem truncate_request_model (d : GithubProxy.GPData) (n : Nat) :
    (GithubProxy.truncate_request d n).model? = d.model? := by
  unfold GithubProxy.truncate_request
  by_cases h : GithubProxy.msgTokens d.messages +
      GithubProxy.toolTokens d.tools ≤ n
  · rw [if_pos h]
  · rw [if_neg h]

/-- C3 (amended).  `openrouter_to_github.py`'s `get_github_model` resolves
in order with first match winning: (1) an id that is a key of
`MODEL_MAPPING` returns exactly the mapped value; (2) otherwise the
entries are scanned in declaration order and the first entry whose
lowercased key is a substring of the lowercased requested id — or whose
lowercased key contains it — wins, so ties go to the earliest-declared
key.  `github_proxy.py`'s resolution (`MODEL_MAP.get(requested_model,
requested_model)`), by contrast, performs only the exact-match step: a
requested id that is a key of `MODEL_MAP` maps to its value, and any
other id — even one the substring step would match — is forwarded
unchanged as the upstream model (see the counterexample). -/
theorem c3_resolve_order_amended :
    (∀ (req v : String) (cfg : OpenrouterToGithub.Config),
        (req, v) ∈ OpenrouterToGithub.MODEL_MAPPING →
        OpenrouterToGithub.get_github_model req cfg = v) ∧
    (∀ (req : String) (cfg : OpenrouterToGithub.Config) (i : Nat)
        (kv : String × String),
        (∀ kv' ∈ OpenrouterToGithub.MODEL_MAPPING, kv'.1 ≠ req) →
        OpenrouterToGithub.MODEL_MAPPING.get? i = some kv →
        OpenrouterToGithub.substrPred req kv = true →
        (OpenrouterToGithub.MODEL_MAPPING.take i).all
          (fun kv' => !(OpenrouterToGithub.substrPred req kv')) = true →
        OpenrouterToGithub.get_github_model req cfg = kv.2) ∧
    (∀ (req v : String) (st : Option Json)
        (msgs : List GithubProxy.Message) (tools : List Json)
        (extra : List (String × Json)),
        (req, v) ∈ GithubProxy.MODEL_MAP →
        ((GithubProxy.chat_completions_prep
            ⟨some req, st, msgs, tools, extra⟩).1).model? = some v) ∧
    (∀ (req : String) (st : Option Json)
        (msgs : List GithubProxy.Message) (tools : List Json)
        (extra : List (String × Json)),
        (∀ kv ∈ GithubProxy.MODEL_MAP, kv.1 ≠ req) →
        ((GithubProxy.chat_completions_prep
            ⟨some req, st, msgs, tools, extra⟩).1).model? = some req) := by
  refine ⟨?_, ?_, ?_, ?_⟩
  · intro req v cfg hmem
    have hnd : (OpenrouterToGithub.MODEL_MAPPING.map Prod.fst).Nodup := by decide
    unfold OpenrouterToGithub.get_github_model
    rw [find?_key_of_mem OpenrouterToGithub.MODEL_MAPPING req v hnd hmem]
  · intro req cfg i kv hno hget hp htake
    have hnone : OpenrouterToGithub.MODEL_MAPPING.find?
        (fun kv => kv.1 = req) = none := by
      rw [List.find?_eq_none]
      intro x hx
      simpa using hno x hx
    unfold OpenrouterToGithub.get_github_model
    rw [hnone, find?_of_take_all_neg (OpenrouterToGithub.substrPred req)
      OpenrouterToGithub.MODEL_MAPPING i kv htake hget hp]
  · intro req v st msgs tools extra hmem
    have hnd : (GithubProxy.MODEL_MAP.map Prod.fst).Nodup := by decide
    simp only [GithubProxy.chat_completions_prep]
    rw [truncate_request_model]
    simp only [Option.getD_some]
    rw [find?_key_of_mem GithubProxy.MODEL_MAP req v hnd hmem]
    rfl
  · intro req st msgs tools extra hno
    have hnone : GithubProxy.MODEL_MAP.find? (fun kv => kv.1 = req) = none := by
      rw [List.find?_eq_none]
      intro x hx
      simpa using hno x hx
    simp only [GithubProxy.chat_completions_prep]
    rw [truncate_request_model]
    simp only [Option.getD_some]
    rw [hnone]
    rfl

/-- Witness for C3: in `openrouter_to_github.py` the exact key
`"gpt-3.5-turbo"` maps to `"gpt-4o-mini"` and `"my-o1-custom"` (no exact
key) substring-matches the sixth entry `("o1", "o1")` first, yielding
`"o1"`; in `github_proxy.py` the exact key `"gpt-4"` maps to `"gpt-4o"`
and the non-key `"my-o1-custom"` passes through unchanged. -/
theorem c3_resolve_order_witness :
    (("gpt-3.5-turbo", "gpt-4o-mini") ∈ OpenrouterToGithub.MODEL_MAPPING ∧
      OpenrouterToGithub.get_github_model "gpt-3.5-turbo"
        OpenrouterToGithub.defaultConfig = "gpt-4o-mini") ∧
    ((∀ kv' ∈ OpenrouterToGithub.MODEL_MAPPING, kv'.1 ≠ "my-o1-custom") ∧
      OpenrouterToGithub.MODEL_MAPPING.get? 5 = some ("o1", "o1") ∧
      OpenrouterToGithub.substrPred "my-o1-custom" ("o1", "o1") = true ∧
      (OpenrouterToGithub.MODEL_MAPPING.take 5).all
        (fun kv' => !(OpenrouterToGithub.substrPred "my-o1-custom" kv')) = true ∧
      OpenrouterToGithub.get_github_model "my-o1-custom"
        OpenrouterToGithub.defaultConfig = "o1") ∧
    (("gpt-4", "gpt-4o") ∈ GithubProxy.MODEL_MAP ∧
      ((GithubProxy.chat_completions_prep
          ⟨some "gpt-4", none, [], [], []⟩).1).model? = some "gpt-4o") ∧
    ((∀ kv ∈ GithubProxy.MODEL_MAP, kv.1 ≠ "my-o1-custom") ∧
      ((GithubProxy.chat_completions_prep
          ⟨some "my-o1-custom", none, [], [], []⟩).1).model? =
        some "my-o1-custom") := by
  refine ⟨⟨by decide, c3_resolve_order_amended.1 "gpt-3.5-turbo" "gpt-4o-mini"
      OpenrouterToGithub.defaultConfig (by decide)⟩,
    ⟨by decide, rfl, by decide, by decide,
      c3_resolve_order_amended.2.1 "my-o1-custom"
        OpenrouterToGithub.defaultConfig 5
        ("o1", "o1") (by decide) rfl (by decide) (by decide)⟩,
    ⟨by decide, c3_resolve_order_amended.2.2.1 "gpt-4" "gpt-4o" none [] [] []
      (by decide)⟩,
    ⟨by decide, c3_resolve_order_amended.2.2.2 "my-o1-custom" none [] [] []
      (by decide)⟩⟩

/-- Counterexample to C3 as stated: `github_proxy.py` (also cited by the
claim) applies no substring step.  The requested id `"GPT-4O"` is not a
key of `MODEL_MAP`, and the claimed step (2) would match the
first-declared entry `("gpt-4o", "gpt-4o")` case-insensitively and return
`"gpt-4o"`; the code instead forwards `"GPT-4O"` unchanged as the
upstream model. -/
theorem c3_resolve_order_counterexample :
    ((GithubProxy.chat_completions_prep
        ⟨some "GPT-4O", none, [], [], []⟩).1).model? = some "GPT-4O" ∧
    (∀ kv ∈ GithubProxy.MODEL_MAP, kv.1 ≠ "GPT-4O") ∧
    GithubProxy.MODEL_MAP.get? 0 = some ("gpt-4o", "gpt-4o") ∧
    OpenrouterToGithub.substrPred "GPT-4O" ("gpt-4o", "gpt-4o") = true ∧
    ("GPT-4O" : String) ≠ "gpt-4o" :=
  ⟨rfl, by decide, rfl, by decide, by decide⟩

/-- C4 (code bug).  For the empty requested id the resolver does *not*
return the configured default model: the empty string is a substring of
every mapping key, so the substring scan matches the first-declared entry
`("gpt-4", "gpt-4o")` and returns `"gpt-4o"`.  The fallback
`requested_model or config.default_model`, whose evident purpose is to map
a falsy requested id to the default, is unreachable for the empty string. -/
theorem c4_empty_model_code_bug :
    OpenrouterToGithub.get_github_model "" OpenrouterToGithub.defaultConfig =
      "gpt-4o" ∧
    OpenrouterToGithub.defaultConfig.default_model = "claude-4.5-opus" ∧
    ("gpt-4o" : String) ≠ "claude-4.5-opus" :=
  ⟨rfl, rfl, by decide⟩

/-- C5.  A request whose estimated token sum (messages contribute
`len(content) // 4 + 10`, tools `len(json.dumps(tool)) // 4`) is at or
below the budget of 6000 passes through `truncate_request` unchanged. -/
theorem c5_under_budget_identity :
    ∀ d : GithubProxy.GPData,
      GithubProxy.msgTokens d.messages + GithubProxy.toolTokens d.tools ≤ 6000 →
      GithubProxy.truncate_request d 6000 = d := by
  intro d h
  unfold GithubProxy.truncate_request
  rw [if_pos h]

/-- Witness for C5: a one-message request estimating 10 tokens is returned
unchanged. -/
theorem c5_under_budget_identity_witness :
    (GithubProxy.msgTokens [⟨"user", "hi", []⟩] +
      GithubProxy.toolTokens [] ≤ 6000) ∧
    GithubProxy.truncate_request
      ⟨some "gpt-4o", none, [⟨"user", "hi", []⟩], [], []⟩ 6000 =
      ⟨some "gpt-4o", none, [⟨"user", "hi", []⟩], [], []⟩ :=
  ⟨by decide,
    c5_under_budget_identity ⟨some "gpt-4o", none, [⟨"user", "hi", []⟩], [], []⟩
      (by decide)⟩

namespace GithubProxy

theorem length_mk_replicate (n : Nat) (c : Char) :
    (String.mk (List.replicate n c)).length = n := by
  show (List.replicate n c).length = n
  exact List.length_replicate ..

theorem estimate_bigContentB : estimate_tokens Fixtures.bigContentB = 10000 := by
  rw [Fixtures.bigContentB, estimate_tokens, length_mk_replicate]

theorem estimate_bigContentA : estimate_tokens Fixtures.bigContentA = 6000 := by
  rw [Fixtures.bigContentA, estimate_tokens, length_mk_replicate]

theorem truncateSystem_cons_system (m0 : Message) (rest : List Message)
    (hrole : m0.role = "system") :
    truncateSystem (m0 :: rest) =
      (if estimate_tokens m0.content > 3000 then
        { m0 with content := pyTake m0.content 12000 ++ truncMarker }
       else m0) :: rest := by
  simp only [truncateSystem]
  by_cases he : estimate_tokens m0.content > 3000
  · rw [if_pos (show m0.role = "system" ∧ estimate_tokens m0.content > 3000 from
      ⟨hrole, he⟩), if_pos he]
  · rw [if_neg (show ¬(m0.role = "system" ∧ estimate_tokens m0.content > 3000) by
      tauto), if_neg he]

theorem truncate_messages_eight (d : GPData) (m0 : Message)
    (rest : List Message)
    (hm : d.messages = m0 :: rest)
    (hrole : m0.role = "system")
    (hlen : rest.length = 7)
    (hothers : ∀ m ∈ rest, m.role ≠ "system")
    (hover : msgTokens d.messages + toolTokens d.tools > 6000) :
    (truncate_request d 6000).messages =
      (if estimate_tokens m0.content > 3000 then
        { m0 with content := pyTake m0.content 12000 ++ truncMarker }
       else m0) :: rest.drop 2 := by
  unfold truncate_request
  rw [if_neg (by omega)]
  simp only [hm, truncateSystem_cons_system m0 rest hrole]
  set m0' := (if estimate_tokens m0.content > 3000 then
        { m0 with content := pyTake m0.content 12000 ++ truncMarker }
       else m0) with hm0'
  have hrole' : m0'.role = "system" := by
    rw [hm0']
    by_cases he : estimate_tokens m0.content > 3000
    · rw [if_pos he]; exact hrole
    · rw [if_neg he]; exact hrole
  have hlen8 : (m0' :: rest).length = 8 := by simp [hlen]
  rw [if_pos (by rw [hlen8]; omega)]
  have hfilter : (m0' :: rest).filter (fun m => m.role = "system") = [m0'] := by
    rw [List.filter_cons_of_pos (by simp [hrole'])]
    rw [List.filter_eq_nil_iff.mpr (by intro m hmem; simpa using hothers m hmem)]
  rw [hfilter, hlen8]
  have hdrop : (m0' :: rest).drop (8 - 5) = rest.drop 2 := by
    simp [List.drop_succ_cons]
  rw [hdrop]
  rfl


theorem length_mk (l : List Char) : (String.mk l).length = l.length := rfl

theorem pyTake_length (s : String) (n : Nat) :
    (pyTake s n).length = min n s.length := by
  rw [pyTake, length_mk, List.length_take]
  rfl

theorem truncMarker_length : truncMarker.length = 44 := by decide

/-- C6 (amended).  For an over-budget request with 8 messages — a leading
system message and 7 non-system messages — `truncate_request` keeps the
system message followed by the last 5 of the 7 others in original order;
the kept system message is byte-for-byte the original *unless* its own
estimate exceeds 3000 tokens, in which case its content is first truncated
to its leading 12000 characters plus the truncation marker (which is what
refutes the claim's unconditional "exactly the system message"). -/
theorem c6_eight_messages_amended :
    ∀ (d : GPData) (m0 : Message) (rest : List Message),
      d.messages = m0 :: rest →
      m0.role = "system" →
      rest.length = 7 →
      (∀ m ∈ rest, m.role ≠ "system") →
      msgTokens d.messages + toolTokens d.tools > 6000 →
      (truncate_request d 6000).messages =
        (if estimate_tokens m0.content > 3000 then
          { m0 with content := pyTake m0.content 12000 ++ truncMarker }
         else m0) :: rest.drop 2 :=
  fun d m0 rest h1 h2 h3 h4 h5 => truncate_messages_eight d m0 rest h1 h2 h3 h4 h5

/-- Witness for C6: a concrete over-budget 8-message request (one 40000-
character user message) whose short system prompt is kept verbatim,
followed by exactly the last five messages. -/
theorem c6_eight_messages_witness :
    msgTokens ((⟨"system", "", []⟩ : Message) ::
        [⟨"user", Fixtures.bigContentB, []⟩, ⟨"user", "", []⟩,
         ⟨"user", "", []⟩, ⟨"user", "", []⟩, ⟨"user", "", []⟩,
         ⟨"user", "", []⟩, ⟨"user", "", []⟩]) + toolTokens [] > 6000 ∧
    (truncate_request
        ⟨some "gpt-4o", none,
          ⟨"system", "", []⟩ ::
            [⟨"user", Fixtures.bigContentB, []⟩, ⟨"user", "", []⟩,
             ⟨"user", "", []⟩, ⟨"user", "", []⟩, ⟨"user", "", []⟩,
             ⟨"user", "", []⟩, ⟨"user", "", []⟩], [], []⟩ 6000).messages =
      [⟨"system", "", []⟩, ⟨"user", "", []⟩, ⟨"user", "", []⟩,
       ⟨"user", "", []⟩, ⟨"user", "", []⟩, ⟨"user", "", []⟩] := by
  have gen : ∀ s : String, estimate_tokens s = 10000 →
      msgTokens ((⟨"system", "", []⟩ : Message) ::
          [⟨"user", s, []⟩, ⟨"user", "", []⟩,
           ⟨"user", "", []⟩, ⟨"user", "", []⟩, ⟨"user", "", []⟩,
           ⟨"user", "", []⟩, ⟨"user", "", []⟩]) + toolTokens [] > 6000 ∧
      (truncate_request
          ⟨some "gpt-4o", none,
            ⟨"system", "", []⟩ ::
              [⟨"user", s, []⟩, ⟨"user", "", []⟩,
               ⟨"user", "", []⟩, ⟨"user", "", []⟩, ⟨"user", "", []⟩,
               ⟨"user", "", []⟩, ⟨"user", "", []⟩], [], []⟩ 6000).messages =
        [⟨"system", "", []⟩, ⟨"user", "", []⟩, ⟨"user", "", []⟩,
         ⟨"user", "", []⟩, ⟨"user", "", []⟩, ⟨"user", "", []⟩] := by
    intro s hs
    have hover : msgTokens ((⟨"system", "", []⟩ : Message) ::
        [⟨"user", s, []⟩, ⟨"user", "", []⟩,
         ⟨"user", "", []⟩, ⟨"user", "", []⟩, ⟨"user", "", []⟩,
         ⟨"user", "", []⟩, ⟨"user", "", []⟩]) + toolTokens [] > 6000 := by
      simp only [msgTokens, toolTokens, List.map_cons, List.map_nil,
        List.sum_cons, List.sum_nil, hs, show estimate_tokens "" = 0 from rfl]
      norm_num
    have hroles : ∀ m ∈ [(⟨"user", s, []⟩ : Message), ⟨"user", "", []⟩,
        ⟨"user", "", []⟩, ⟨"user", "", []⟩, ⟨"user", "", []⟩,
        ⟨"user", "", []⟩, ⟨"user", "", []⟩], m.role ≠ "system" := by
      intro m hm
      simp only [List.mem_cons, List.not_mem_nil, or_false] at hm
      rcases hm with rfl | rfl | rfl | rfl | rfl | rfl | rfl <;> simp
    refine ⟨hover, ?_⟩
    have h := c6_eight_messages_amended
      ⟨some "gpt-4o", none,
        ⟨"system", "", []⟩ ::
          [⟨"user", s, []⟩, ⟨"user", "", []⟩,
           ⟨"user", "", []⟩, ⟨"user", "", []⟩, ⟨"user", "", []⟩,
           ⟨"user", "", []⟩, ⟨"user", "", []⟩], [], []⟩ ⟨"system", "", []⟩
      [⟨"user", s, []⟩, ⟨"user", "", []⟩,
       ⟨"user", "", []⟩, ⟨"user", "", []⟩, ⟨"user", "", []⟩,
       ⟨"user", "", []⟩, ⟨"user", "", []⟩] rfl rfl rfl hroles hover
    rw [h, if_neg (by decide)]
    rfl
  exact gen Fixtures.bigContentB estimate_bigContentB

end GithubProxy

namespace GithubProxy

/-- Counterexample to C6 as stated: with a 24000-character system prompt
(estimate 6000 > 3000) the over-budget request's output does *not* consist
of the original system message plus the last five messages — strategy 1
rewrites the system content first. -/
theorem c6_eight_messages_counterexample :
    msgTokens ((⟨"system", Fixtures.bigContentA, []⟩ : Message) ::
        [⟨"user", "", []⟩, ⟨"user", "", []⟩, ⟨"user", "", []⟩,
         ⟨"user", "", []⟩, ⟨"user", "", []⟩, ⟨"user", "", []⟩,
         ⟨"user", "", []⟩]) + toolTokens [] > 6000 ∧
    (truncate_request
        ⟨some "gpt-4o", none,
          ⟨"system", Fixtures.bigContentA, []⟩ ::
            [⟨"user", "", []⟩, ⟨"user", "", []⟩, ⟨"user", "", []⟩,
             ⟨"user", "", []⟩, ⟨"user", "", []⟩, ⟨"user", "", []⟩,
             ⟨"user", "", []⟩], [], []⟩ 6000).messages ≠
      ⟨"system", Fixtures.bigContentA, []⟩ ::
        ([⟨"user", "", []⟩, ⟨"user", "", []⟩, ⟨"user", "", []⟩,
          ⟨"user", "", []⟩, ⟨"user", "", []⟩, ⟨"user", "", []⟩,
          ⟨"user", "", []⟩] : List Message).drop 2 := by
  have gen : ∀ s : String, estimate_tokens s = 6000 →
      msgTokens ((⟨"system", s, []⟩ : Message) ::
          [⟨"user", "", []⟩, ⟨"user", "", []⟩, ⟨"user", "", []⟩,
           ⟨"user", "", []⟩, ⟨"user", "", []⟩, ⟨"user", "", []⟩,
           ⟨"user", "", []⟩]) + toolTokens [] > 6000 ∧
      (truncate_request
          ⟨some "gpt-4o", none,
            ⟨"system", s, []⟩ ::
              [⟨"user", "", []⟩, ⟨"user", "", []⟩, ⟨"user", "", []⟩,
               ⟨"user", "", []⟩, ⟨"user", "", []⟩, ⟨"user", "", []⟩,
               ⟨"user", "", []⟩], [], []⟩ 6000).messages ≠
        ⟨"system", s, []⟩ ::
          ([⟨"user", "", []⟩, ⟨"user", "", []⟩, ⟨"user", "", []⟩,
            ⟨"user", "", []⟩, ⟨"user", "", []⟩, ⟨"user", "", []⟩,
            ⟨"user", "", []⟩] : List Message).drop 2 := by
    intro s hs
    have hover : msgTokens ((⟨"system", s, []⟩ : Message) ::
        [⟨"user", "", []⟩, ⟨"user", "", []⟩, ⟨"user", "", []⟩,
         ⟨"user", "", []⟩, ⟨"user", "", []⟩, ⟨"user", "", []⟩,
         ⟨"user", "", []⟩]) + toolTokens [] > 6000 := by
      simp only [msgTokens, toolTokens, List.map_cons, List.map_nil,
        List.sum_cons, List.sum_nil, hs, show estimate_tokens "" = 0 from rfl]
      norm_num
    have hroles : ∀ m ∈ [(⟨"user", "", []⟩ : Message), ⟨"user", "", []⟩,
        ⟨"user", "", []⟩, ⟨"user", "", []⟩, ⟨"user", "", []⟩,
        ⟨"user", "", []⟩, ⟨"user", "", []⟩], m.role ≠ "system" := by
      intro m hm
      simp only [List.mem_cons, List.not_mem_nil, or_false] at hm
      rcases hm with rfl | rfl | rfl | rfl | rfl | rfl | rfl <;> simp
    have hgt : estimate_tokens s > 3000 := by rw [hs]; norm_num
    have h := truncate_messages_eight
      ⟨some "gpt-4o", none,
        ⟨"system", s, []⟩ ::
          [⟨"user", "", []⟩, ⟨"user", "", []⟩, ⟨"user", "", []⟩,
           ⟨"user", "", []⟩, ⟨"user", "", []⟩, ⟨"user", "", []⟩,
           ⟨"user", "", []⟩], [], []⟩ ⟨"system", s, []⟩
      [⟨"user", "", []⟩, ⟨"user", "", []⟩, ⟨"user", "", []⟩,
       ⟨"user", "", []⟩, ⟨"user", "", []⟩, ⟨"user", "", []⟩,
       ⟨"user", "", []⟩] rfl rfl rfl hroles hover
    refine ⟨hover, ?_⟩
    rw [h, if_pos hgt]
    intro heq
    simp only [List.cons.injEq, Message.mk.injEq] at heq
    have hc : pyTake s 12000 ++ truncMarker = s := heq.1.2.1
    have hlen := congrArg String.length hc
    rw [String.length_append, pyTake_length, truncMarker_length] at hlen
    have hsl : s.length / 4 = 6000 := by rw [estimate_tokens] at hs; exact hs
    have h24 : 24000 ≤ s.length := by omega
    rw [Nat.min_eq_left (by omega)] at hlen
    omega
  exact gen Fixtures.bigContentA estimate_bigContentA

end GithubProxy

/-- C7 (amended).  `github_proxy.py` passes a non-200 upstream status and
the raw upstream body text through unchanged (no model rewrite, no
wrapping); `openrouter_to_github.py` preserves the status code but wraps
the upstream text in an `error` envelope
`\x7b"error": \x7b"message", "type", "code"\x7d\x7d` instead of passing the
raw body through. -/
theorem c7_error_passthrough_amended :
    (∀ (up : GithubProxy.SyncUp) (model : String), up.status ≠ 200 →
        GithubProxy.non_streaming_response up model =
          some (up.status, GithubProxy.HttpBody.raw up.text)) ∧
    (∀ (status : Nat) (text : String),
        (OpenrouterToGithub.chat_error status text).1 = status ∧
        (OpenrouterToGithub.chat_error status text).2 =
          Json.obj
            [("error",
              Json.obj
                [("message",
                  Json.str ("GitHub Models API error: " ++ text)),
                 ("type", Json.str "api_error"),
                 ("code", Json.num (Int.ofNat status))])]) := by
  constructor
  · intro up model h
    unfold GithubProxy.non_streaming_response
    rw [if_pos h]
  · intro status text
    exact ⟨rfl, rfl⟩

/-- Witness for C7: a concrete upstream 429 with body `"rate limited"` is
passed through by `github_proxy.py` with the same status and raw text. -/
theorem c7_error_passthrough_witness :
    (429 ≠ 200) ∧
    GithubProxy.non_streaming_response ⟨429, "rate limited"⟩ "gpt-4" =
      some (429, GithubProxy.HttpBody.raw "rate limited") :=
  ⟨by decide,
    c7_error_passthrough_amended.1 ⟨429, "rate limited"⟩ "gpt-4" (by decide)⟩

/-- Counterexample to C7 as stated: for an upstream 429 with body `"\x7b\x7d"`,
`openrouter_to_github.py` returns the same status but a wrapped error
envelope, not the raw upstream body. -/
theorem c7_error_passthrough_counterexample :
    loads "\x7b\x7d" = some (Json.obj []) ∧
    (OpenrouterToGithub.chat_error 429 "\x7b\x7d").1 = 429 ∧
    (OpenrouterToGithub.chat_error 429 "\x7b\x7d").2 ≠ Json.obj [] := by
  refine ⟨rfl, rfl, ?_⟩
  intro h
  simp only [OpenrouterToGithub.chat_error, Json.obj.injEq] at h
  exact nomatch h

theorem filterMap_lookup_keys (req : List (String × Json)) (ks : List String) :
    (ks.filterMap (fun k => (dictLookup req k).map (fun v => (k, v)))).map
        Prod.fst =
      ks.filter (fun k => (dictLookup req k).isSome) := by
  induction ks with
  | nil => rfl
  | cons k t ih =>
    simp only [List.filterMap_cons, List.filter_cons]
    cases h : dictLookup req k with
    | none => simpa [h] using ih
    | some v => simpa [h] using ih

theorem filterMap_lookup_mem (req : List (String × Json)) (ks : List String)
    (k : String) (v : Json) :
    (k, v) ∈ ks.filterMap (fun k => (dictLookup req k).map (fun v => (k, v))) →
    dictLookup req k = some v := by
  induction ks with
  | nil => intro h; simp at h
  | cons k2 t ih =>
    intro h
    simp only [List.filterMap_cons] at h
    cases h2 : dictLookup req k2 with
    | none => rw [h2] at h; exact ih h
    | some v2 =>
        rw [h2] at h
        rcases List.mem_cons.mp h with h3 | h3
        · have hk : k = k2 := congrArg Prod.fst h3
          have hv : v = v2 := congrArg Prod.snd h3
          subst hk
          rw [hv]
          exact h2
        · exact ih h3

/-- C8 (amended).  `openrouter_to_github.py`'s `transform_request` builds
the upstream payload from exactly `messages`, `model`, and those
allow-listed scalar parameters present in the input, in that order; every
other input parameter — `store` in particular — is dropped, and each
copied parameter keeps its input value.  (`github_proxy.py`, by contrast,
forwards the whole inbound body upstream, deleting only `store` — see the
counterexample.) -/
theorem c8_allowlist_amended :
    ∀ (req : List (String × Json)) (cfg : OpenrouterToGithub.Config)
      (out : List (String × Json)),
      OpenrouterToGithub.transform_request req cfg = some out →
      out.map Prod.fst =
        "messages" :: "model" ::
          OpenrouterToGithub.passthrough_keys.filter
            (fun k => (dictLookup req k).isSome) ∧
      "store" ∉ out.map Prod.fst ∧
      ∀ k v, (k, v) ∈ out.drop 2 → dictLookup req k = some v := by
  intro req cfg out h
  unfold OpenrouterToGithub.transform_request at h
  cases hm : (dictLookup req "model").getD (Json.str cfg.default_model) with
  | null => rw [hm] at h; exact nomatch h
  | bool b => rw [hm] at h; exact nomatch h
  | num n => rw [hm] at h; exact nomatch h
  | arr xs => rw [hm] at h; exact nomatch h
  | obj kvs => rw [hm] at h; exact nomatch h
  | str s =>
      rw [hm] at h
      simp only [Option.some.injEq] at h
      subst h
      refine ⟨?_, ?_, ?_⟩
      · simp only [List.cons_append, List.nil_append, List.map_cons]
        rw [filterMap_lookup_keys]
      · simp only [List.cons_append, List.nil_append, List.map_cons]
        intro hmem
        rcases List.mem_cons.mp hmem with h1 | h1
        · exact absurd h1 (by decide)
        · rcases List.mem_cons.mp h1 with h2 | h2
          · exact absurd h2 (by decide)
          · rw [filterMap_lookup_keys] at h2
            have := (List.mem_filter.mp h2).1
            exact absurd this (by decide)
      · intro k v hm2
        simp only [List.cons_append, List.nil_append, List.drop_succ_cons,
          List.drop_zero] at hm2
        exact filterMap_lookup_mem req OpenrouterToGithub.passthrough_keys k v hm2

/-- Witness for C8: a concrete request with `model`, `messages`,
`temperature`, `store`, and an unknown `junk` key is translated to exactly
`messages`, `model`, `temperature`; `store` and `junk` are gone. -/
theorem c8_allowlist_witness :
    OpenrouterToGithub.transform_request
        [("model", Json.str "gpt-4"), ("messages", Json.arr []),
         ("temperature", Json.num 1), ("store", Json.bool true),
         ("junk", Json.num 5)] OpenrouterToGithub.defaultConfig =
      some [("messages", Json.arr []), ("model", Json.str "gpt-4o"),
            ("temperature", Json.num 1)] ∧
    ([("messages", Json.arr []), ("model", Json.str "gpt-4o"),
      ("temperature", Json.num 1)] : List (String × Json)).map Prod.fst =
      "messages" :: "model" ::
        OpenrouterToGithub.passthrough_keys.filter
          (fun k => (dictLookup
            [("model", Json.str "gpt-4"), ("messages", Json.arr []),
             ("temperature", Json.num 1), ("store", Json.bool true),
             ("junk", Json.num 5)] k).isSome) ∧
    "store" ∉ ([("messages", Json.arr []), ("model", Json.str "gpt-4o"),
      ("temperature", Json.num 1)] : List (String × Json)).map Prod.fst := by
  have h : OpenrouterToGithub.transform_request
      [("model", Json.str "gpt-4"), ("messages", Json.arr []),
       ("temperature", Json.num 1), ("store", Json.bool true),
       ("junk", Json.num 5)] OpenrouterToGithub.defaultConfig =
      some [("messages", Json.arr []), ("model", Json.str "gpt-4o"),
            ("temperature", Json.num 1)] := rfl
  have h2 := c8_allowlist_amended _ _ _ h
  exact ⟨h, h2.1, h2.2.1⟩

/-- Counterexample to C8 as stated: `github_proxy.py` keeps every inbound
top-level key other than `store` — a non-allow-listed `logit_bias`
parameter survives into the upstream payload. -/
theorem c8_allowlist_counterexample :
    ((GithubProxy.chat_completions_prep
        ⟨some "gpt-4o", none, [], [], [("logit_bias", Json.num 1)]⟩).1).extra =
      [("logit_bias", Json.num 1)] ∧
    "logit_bias" ∉ OpenrouterToGithub.passthrough_keys ∧
    "logit_bias" ≠ "messages" ∧ "logit_bias" ≠ "model" :=
  ⟨rfl, by decide, by decide, by decide⟩

namespace GithubProxy

/-- C9.  For an upstream SSE sequence of a data line parsing to an object
with one choice, a data line parsing to an object with zero choices, and
then the `[DONE]` sentinel, the streaming loop emits exactly one forwarded
data frame (fixed id/created/requested model, the upstream choices and
optional usage) followed by the `[DONE]` frame; the empty-choices chunk is
filtered out, not forwarded. -/
theorem c9_empty_choices_filtered :
    ∀ (model chunk_id : String) (created : Int) (s1 s2 : String)
      (kvs1 kvs2 : List (String × Json)) (c : Json),
      loads s1 = some (Json.obj kvs1) →
      dictGet kvs1 "choices" (Json.arr []) = Json.arr [c] →
      loads s2 = some (Json.obj kvs2) →
      dictGet kvs2 "choices" (Json.arr []) = Json.arr [] →
      processLines model chunk_id created
        ["data: " ++ s1, "data: " ++ s2, "data: [DONE]"] =
        ([sseData (mkChunk chunk_id created model (Json.arr [c])
            (dictLookup kvs1 "usage")),
          doneFrame], LoopExit.broke) := by
  intro model chunk_id created s1 s2 kvs1 kvs2 c h1 hc1 h2 hc2
  have hd1 : ¬(s1 = "[DONE]") := by
    intro he
    rw [he] at h1
    have hn : loads "[DONE]" = none := rfl
    rw [hn] at h1
    exact nomatch h1
  have hd2 : ¬(s2 = "[DONE]") := by
    intro he
    rw [he] at h2
    have hn : loads "[DONE]" = none := rfl
    rw [hn] at h2
    exact nomatch h2
  simp only [processLines, if_neg (prepend_ne_empty s1), stripData_prepend,
    if_neg hd1, h1, hc1, if_neg (prepend_ne_empty s2), if_neg hd2, h2, hc2]
  rfl

end GithubProxy

namespace GithubProxy

/-- Witness for C9 at a concrete upstream sequence. -/
theorem c9_empty_choices_filtered_witness :
    loads "\x7b\"choices\": [\x7b\"index\": 0\x7d]\x7d" =
      some (Json.obj [("choices", Json.arr [Json.obj [("index", Json.num 0)]])]) ∧
    loads "\x7b\"choices\": []\x7d" =
      some (Json.obj [("choices", Json.arr [])]) ∧
    processLines "gpt-4" "chatcmpl-w" 7
      ["data: " ++ "\x7b\"choices\": [\x7b\"index\": 0\x7d]\x7d",
       "data: " ++ "\x7b\"choices\": []\x7d", "data: [DONE]"] =
      ([sseData (mkChunk "chatcmpl-w" 7 "gpt-4"
          (Json.arr [Json.obj [("index", Json.num 0)]])
          (dictLookup [("choices", Json.arr [Json.obj [("index", Json.num 0)]])]
            "usage")),
        doneFrame], LoopExit.broke) :=
  ⟨rfl, rfl,
    c9_empty_choices_filtered "gpt-4" "chatcmpl-w" 7
      "\x7b\"choices\": [\x7b\"index\": 0\x7d]\x7d" "\x7b\"choices\": []\x7d"
      [("choices", Json.arr [Json.obj [("index", Json.num 0)]])]
      [("choices", Json.arr [])] (Json.obj [("index", Json.num 0)])
      rfl rfl rfl rfl⟩

end GithubProxy

namespace GithubProxy

theorem truncateSystem_length (l : List Message) :
    (truncateSystem l).length = l.length := by
  cases l with
  | nil => rfl
  | cons m rest =>
      simp only [truncateSystem]
      split
      · simp
      · simp

theorem truncateSystem_drop (l : List Message) (n : Nat) (hn : 1 ≤ n) :
    (truncateSystem l).drop n = l.drop n := by
  cases l with
  | nil => rfl
  | cons m rest =>
      obtain ⟨k, rfl⟩ : ∃ k, n = k + 1 := ⟨n - 1, by omega⟩
      simp only [truncateSystem]
      split
      · simp [List.drop_succ_cons]
      · rfl

/-- C10 (implicit behavior).  In an over-budget request with more than 6
messages, a message with role `"system"` that sits among the last 5
messages is collected by the system-message filter *and* kept by the
recent-messages slice, so it appears (at least) twice in the truncated
output: once in the leading system block and once in the trailing block. -/
theorem c10_system_duplicated :
    ∀ (d : GPData) (m : Message),
      d.messages.length > 6 →
      msgTokens d.messages + toolTokens d.tools > 6000 →
      m ∈ d.messages.drop (d.messages.length - 5) →
      m.role = "system" →
      ∃ l1 l2 l3, (truncate_request d 6000).messages =
        l1 ++ m :: l2 ++ m :: l3 := by
  intro d m hlen hover hmem hrole
  unfold truncate_request
  rw [if_neg (by omega)]
  dsimp only
  have hlen' : (truncateSystem d.messages).length = d.messages.length :=
    truncateSystem_length d.messages
  rw [if_pos (by rw [hlen']; exact hlen)]
  rw [hlen', truncateSystem_drop d.messages (d.messages.length - 5) (by omega)]
  have hmem' : m ∈ truncateSystem d.messages := by
    have h2 : m ∈ (truncateSystem d.messages).drop (d.messages.length - 5) := by
      rw [truncateSystem_drop d.messages (d.messages.length - 5) (by omega)]
      exact hmem
    exact List.mem_of_mem_drop h2
  have hf : m ∈ (truncateSystem d.messages).filter
      (fun mm => mm.role = "system") :=
    List.mem_filter.mpr ⟨hmem', by simp [hrole]⟩
  obtain ⟨a, b, hab⟩ := List.append_of_mem hf
  obtain ⟨e, f, hef⟩ := List.append_of_mem hmem
  refine ⟨a, b ++ e, f, ?_⟩
  rw [hab, hef]
  simp [List.append_assoc]

end GithubProxy

namespace GithubProxy

/-- Witness for C10: a 7-message over-budget request with a system message
in position 5 (among the last five) yields an output containing that
message twice. -/
theorem c10_system_duplicated_witness :
    (((⟨some "gpt-4o", none,
        [⟨"user", Fixtures.bigContentB, []⟩, ⟨"user", "", []⟩,
         ⟨"user", "", []⟩, ⟨"user", "", []⟩, ⟨"system", "mid", []⟩,
         ⟨"user", "", []⟩, ⟨"user", "", []⟩], [], []⟩ : GPData)).messages.length > 6) ∧
    msgTokens [(⟨"user", Fixtures.bigContentB, []⟩ : Message), ⟨"user", "", []⟩,
         ⟨"user", "", []⟩, ⟨"user", "", []⟩, ⟨"system", "mid", []⟩,
         ⟨"user", "", []⟩, ⟨"user", "", []⟩] + toolTokens [] > 6000 ∧
    ∃ l1 l2 l3,
      (truncate_request
          ⟨some "gpt-4o", none,
            [⟨"user", Fixtures.bigContentB, []⟩, ⟨"user", "", []⟩,
             ⟨"user", "", []⟩, ⟨"user", "", []⟩, ⟨"system", "mid", []⟩,
             ⟨"user", "", []⟩, ⟨"user", "", []⟩], [], []⟩ 6000).messages =
        l1 ++ (⟨"system", "mid", []⟩ : Message) :: l2 ++
          (⟨"system", "mid", []⟩ : Message) :: l3 := by
  have gen : ∀ s : String, estimate_tokens s = 10000 →
      (((⟨some "gpt-4o", none,
          [⟨"user", s, []⟩, ⟨"user", "", []⟩,
           ⟨"user", "", []⟩, ⟨"user", "", []⟩, ⟨"system", "mid", []⟩,
           ⟨"user", "", []⟩, ⟨"user", "", []⟩], [], []⟩ : GPData)).messages.length > 6) ∧
      msgTokens [(⟨"user", s, []⟩ : Message), ⟨"user", "", []⟩,
           ⟨"user", "", []⟩, ⟨"user", "", []⟩, ⟨"system", "mid", []⟩,
           ⟨"user", "", []⟩, ⟨"user", "", []⟩] + toolTokens [] > 6000 ∧
      ∃ l1 l2 l3,
        (truncate_request
            ⟨some "gpt-4o", none,
              [⟨"user", s, []⟩, ⟨"user", "", []⟩,
               ⟨"user", "", []⟩, ⟨"user", "", []⟩, ⟨"system", "mid", []⟩,
               ⟨"user", "", []⟩, ⟨"user", "", []⟩], [], []⟩ 6000).messages =
          l1 ++ (⟨"system", "mid", []⟩ : Message) :: l2 ++
            (⟨"system", "mid", []⟩ : Message) :: l3 := by
    intro s hs
    have hlen : (7 : Nat) > 6 := by norm_num
    have hover : msgTokens [(⟨"user", s, []⟩ : Message), ⟨"user", "", []⟩,
        ⟨"user", "", []⟩, ⟨"user", "", []⟩, ⟨"system", "mid", []⟩,
        ⟨"user", "", []⟩, ⟨"user", "", []⟩] + toolTokens [] > 6000 := by
      simp only [msgTokens, toolTokens, List.map_cons, List.map_nil,
        List.sum_cons, List.sum_nil, hs, show estimate_tokens "" = 0 from rfl,
        show estimate_tokens "mid" = 0 from rfl]
      norm_num
    refine ⟨hlen, hover, ?_⟩
    exact c10_system_duplicated
      ⟨some "gpt-4o", none,
        [⟨"user", s, []⟩, ⟨"user", "", []⟩,
         ⟨"user", "", []⟩, ⟨"user", "", []⟩, ⟨"system", "mid", []⟩,
         ⟨"user", "", []⟩, ⟨"user", "", []⟩], [], []⟩
      ⟨"system", "mid", []⟩ hlen hover (by simp) rfl
  exact gen Fixtures.bigContentB estimate_bigContentB

end GithubProxy
